import Mathlib

/-!
Shallow embedding of the legal-document-analyzer service (`src/main.py`).

Modelling conventions:
* Lean `String` models Python `str`; `String.take n` models the slice `s[:n]`
  (both count Unicode code points).
* Python dicts are insertion-ordered association lists with unique keys;
  `dictGet`/`dictInsert`/`dictFind` mirror `d.get(k, default)`, `d[k] = v`
  and key lookup.
* External library calls are modelled by explicit parameters: `json_loads`
  stands for `json.loads` (`none` = `JSONDecodeError`), `llm` for
  `openai.ChatCompletion.create` (`Except.error` = a raised exception whose
  string form is carried), and the parsing libraries (PyPDF2, python-docx,
  UTF-8 decoding) see a stored file through `FileData`: its per-page texts,
  its per-paragraph texts, its decoded text, or `corrupt` with the library
  exception's message.
* The two filesystem stores (`uploads/`, `analysis_results/`) are association
  lists from file name to content; writing a path overwrites in place.
* Clock reads (`datetime.utcnow()`) are passed in as string parameters.
-/

namespace LegalDoc

/-- JSON-like values: the Python objects produced by `json.loads` and
serialized by `json.dump` / pydantic `.dict()`. -/
inductive JVal where
  | jnull : JVal
  | jbool : Bool → JVal
  | jnum : Int → JVal
  | jstr : String → JVal
  | jarr : List JVal → JVal
  | jobj : List (String × JVal) → JVal

/-- A Python dict of JSON values, in insertion order. -/
abbrev JObj := List (String × JVal)

/-- Python `d.get(key, default)` on an insertion-ordered association list. -/
def dictGet (d : List (String × α)) (k : String) (dflt : α) : α :=
  match d with
  | [] => dflt
  | (k1, v) :: rest => if k1 = k then v else dictGet rest k dflt

/-- Python `d[key] = v` (and a filesystem write to path `key`): replace the
entry in place when the key is present, otherwise append. -/
def dictInsert (d : List (String × α)) (k : String) (v : α) : List (String × α) :=
  match d with
  | [] => [(k, v)]
  | (k1, v1) :: rest => if k1 = k then (k, v) :: rest else (k1, v1) :: dictInsert rest k v

/-- Key lookup in a dict / file lookup in a directory. -/
def dictFind (d : List (String × α)) (k : String) : Option α :=
  match d with
  | [] => none
  | (k1, v) :: rest => if k1 = k then some v else dictFind rest k

/-- The keys of a dict, in insertion order. -/
def dictKeys (d : List (String × α)) : List String := d.map Prod.fst

/-- Python `s.lower()` (character-wise lower-casing; the tags and extensions
compared in the source are ASCII). -/
def str_lower (s : String) : String := ⟨s.data.map Char.toLower⟩

/-- Python `s.startswith(pre)`. -/
def str_starts_with (s pre : String) : Bool := pre.data.isPrefixOf s.data

/-- Python `s.split('.')[0]`: the characters before the first dot. -/
def split_dot_head (s : String) : String := ⟨s.data.takeWhile (fun c => c != '.')⟩

/-- An `HTTPException(status_code, detail)`.  The batch category-validation
error's detail is built in the source by joining a Python *set* of names,
whose iteration order is unspecified; it is therefore modelled structurally,
carrying the offending names. -/
inductive HTTPError where
  | http : Nat → String → HTTPError
  | httpInvalidTypes : Nat → List String → HTTPError
  deriving DecidableEq

/-- The `status_code` of an `HTTPException`. -/
def HTTPError.status : HTTPError → Nat
  | .http s _ => s
  | .httpInvalidTypes s _ => s

/-- A stored file's content as the parsing libraries see it: a well-formed
PDF is its list of per-page extracted texts (in page order), a well-formed
Word document its list of paragraph texts (in document order), a readable
text file its UTF-8 decoded text, and `corrupt cause` a file on which the
selected parser raises an exception rendered as `cause`. -/
inductive FileData where
  | pdfPages : List String → FileData
  | docParagraphs : List String → FileData
  | txtBytes : String → FileData
  | corrupt : String → FileData
  deriving DecidableEq

/-- Exception text when a parser is handed bytes of a different well-formed
format (the library still raises; the exact message is library-dependent). -/
def library_mismatch_cause : String := "invalid file data"

/-- `extract_text_from_pdf`: starts from `""` and appends each page's
extracted text in order; any `PyPDF2` exception becomes a 400 with the
cause appended to `Error reading PDF: `. -/
def extract_text_from_pdf (f : FileData) : Except HTTPError String :=
  match f with
  | .pdfPages pages => .ok (pages.foldl (fun t p => t ++ p) "")
  | .corrupt cause => .error (.http 400 ("Error reading PDF: " ++ cause))
  | _ => .error (.http 400 ("Error reading PDF: " ++ library_mismatch_cause))

/-- `extract_text_from_docx`: joins paragraph texts with `"\n"`; any
`python-docx` exception becomes a 400. -/
def extract_text_from_docx (f : FileData) : Except HTTPError String :=
  match f with
  | .docParagraphs paras => .ok (String.intercalate "\n" paras)
  | .corrupt cause => .error (.http 400 ("Error reading DOCX: " ++ cause))
  | _ => .error (.http 400 ("Error reading DOCX: " ++ library_mismatch_cause))

/-- `extract_text_from_txt`: returns the UTF-8 decoded file content; any
read/decode exception becomes a 400. -/
def extract_text_from_txt (f : FileData) : Except HTTPError String :=
  match f with
  | .txtBytes s => .ok s
  | .corrupt cause => .error (.http 400 ("Error reading TXT: " ++ cause))
  | _ => .error (.http 400 ("Error reading TXT: " ++ library_mismatch_cause))

/-- `extract_document_text`: dispatches on the lower-cased format tag. -/
def extract_document_text (f : FileData) (file_type : String) : Except HTTPError String :=
  if str_lower file_type = "pdf" then extract_text_from_pdf f
  else if str_lower file_type = "docx" ∨ str_lower file_type = "doc" then extract_text_from_docx f
  else if str_lower file_type = "txt" then extract_text_from_txt f
  else .error (.http 400 ("Unsupported file type: " ++ file_type))

/-- The part of the prompt f-string before the interpolated document text. -/
def prompt_head (analysis_type : String) (focus_areas : List String) : String :=
  "Analyze the following legal document with focus on " ++ analysis_type ++
  " aspects.\nFocus areas: " ++ String.intercalate ", " focus_areas ++
  "\n\nDocument text:\n"

/-- The part of the prompt f-string after the interpolated document text. -/
def prompt_tail : String :=
  "\n\nPlease provide:\n1. Executive Summary (2-3 sentences)\n" ++
  "2. Key Findings (5-7 bullet points)\n3. Risk Assessment (identify major risks)\n" ++
  "4. Recommendations (actionable recommendations)\n5. Detailed Analysis by focus area\n\n" ++
  "Format your response as JSON with keys: summary, key_findings, risks, recommendations, detailed_analysis"

/-- `generate_analysis_prompt`: interpolates the analysis label, the
comma-joined focus areas and `document_text[:5000]` into the template. -/
def generate_analysis_prompt (analysis_type : String) (document_text : String)
    (focus_areas : List String) : String :=
  prompt_head analysis_type focus_areas ++ document_text.take 5000 ++ prompt_tail

/-- The `except json.JSONDecodeError` fallback dict built by every analysis
endpoint: first 200 characters as summary, raw reply under `raw_response`. -/
def parse_fallback (analysis_result : String) : JObj :=
  [("summary", .jstr (analysis_result.take 200)),
   ("detailed_analysis", .jobj [("raw_response", .jstr analysis_result)])]

/-- The `try: json.loads … except` normalization step shared by all
endpoints; `json_loads` is the library parser (`none` = parse failure). -/
def normalize (json_loads : String → Option JObj) (analysis_result : String) : JObj :=
  match json_loads analysis_result with
  | some data => data
  | none => parse_fallback analysis_result

/-- Default focus areas of `ContractAnalysisRequest`, also the `contract`
entry of the batch `focus_areas_map`. -/
def contract_focus : List String := ["terms", "liability", "payment", "termination"]

/-- Default focus areas of `ComplianceAnalysisRequest`. -/
def compliance_focus : List String := ["regulations", "standards", "requirements"]

/-- Default focus areas of `IPAnalysisRequest`. -/
def ip_focus : List String := ["patents", "trademarks", "copyrights", "licensing"]

/-- Default focus areas of `CorporateAnalysisRequest`. -/
def corporate_focus : List String := ["governance", "ownership", "structure", "compliance"]

/-- Default focus areas of `LaborAnalysisRequest`. -/
def labor_focus : List String := ["employment", "benefits", "disputes", "regulations"]

/-- Default focus areas of `TaxAnalysisRequest`. -/
def tax_focus : List String := ["deductions", "credits", "liabilities", "planning"]

/-- The `valid_types` set checked by `batch_analysis` (a Python set literal;
modelled as the list of its elements). -/
def valid_types : List String := ["contract", "compliance", "ip", "corporate", "labor", "tax"]

/-- The `focus_areas_map` dict of `batch_analysis`; its keys coincide with
`valid_types`, and the subscript is only reached after validation, so the
catch-all branch is unreachable in the modelled paths. -/
def focus_areas_map (analysis_type : String) : List String :=
  if analysis_type = "contract" then contract_focus
  else if analysis_type = "compliance" then compliance_focus
  else if analysis_type = "ip" then ip_focus
  else if analysis_type = "corporate" then corporate_focus
  else if analysis_type = "labor" then labor_focus
  else if analysis_type = "tax" then tax_focus
  else []

/-- Constant data of one single-category endpoint: the `analysis_type`
written into the response, the label interpolated into the prompt and the
default focus areas. -/
structure CatConfig where
  atype : String
  label : String
  defaults : List String
  deriving DecidableEq

/-- `analyze_contract`'s constants. -/
def contract_cfg : CatConfig := ⟨"contract", "contract", contract_focus⟩

/-- `analyze_compliance`'s constants. -/
def compliance_cfg : CatConfig := ⟨"compliance", "compliance", compliance_focus⟩

/-- `analyze_ip`'s constants (the prompt label is `intellectual property`). -/
def ip_cfg : CatConfig := ⟨"ip", "intellectual property", ip_focus⟩

/-- `analyze_corporate`'s constants (prompt label `corporate governance`). -/
def corporate_cfg : CatConfig := ⟨"corporate", "corporate governance", corporate_focus⟩

/-- `analyze_labor`'s constants (prompt label `labor law`). -/
def labor_cfg : CatConfig := ⟨"labor", "labor law", labor_focus⟩

/-- `analyze_tax`'s constants (prompt label `tax law`). -/
def tax_cfg : CatConfig := ⟨"tax", "tax law", tax_focus⟩

/-- The six single-category endpoints. -/
def endpoint_cfgs : List CatConfig :=
  [contract_cfg, compliance_cfg, ip_cfg, corporate_cfg, labor_cfg, tax_cfg]

/-- The `uploads/` directory: file name (identifier plus extension) to
stored content, in filesystem enumeration order. -/
abbrev UploadStore := List (String × FileData)

/-- The `analysis_results/` directory: file name to stored JSON value. -/
abbrev ResultStore := List (String × JVal)

/-- `next(UPLOAD_DIR.glob(f"{document_id}.*"), None)`: the first stored file
whose name starts with the identifier followed by a dot. -/
def locate (uploads : UploadStore) (document_id : String) : Option (String × FileData) :=
  uploads.find? (fun p => str_starts_with p.1 (document_id ++ "."))

/-- `save_analysis_result`: writes the data to
`analysis_results/{document_id}_analysis.json`, overwriting any prior file
at that path.  The key does not mention any analysis category. -/
def save_analysis_result (results : ResultStore) (document_id : String)
    (analysis_data : JVal) : ResultStore :=
  dictInsert results (document_id ++ "_analysis.json") analysis_data

/-- `GET /api/v1/results/{document_id}`: reads
`analysis_results/{document_id}_analysis.json`, 404 when absent. -/
def get_analysis_results (results : ResultStore) (document_id : String) :
    Except HTTPError JVal :=
  match dictFind results (document_id ++ "_analysis.json") with
  | some r => .ok r
  | none => .error (.http 404 "Analysis results not found")

/-- `request.focus_areas or default`: Python `or` falls through to the
default list when the field is `None` or the empty (falsy) list. -/
def resolve_focus_areas (focus_areas : Option (List String)) (dflt : List String) :
    List String :=
  match focus_areas with
  | none => dflt
  | some l => if l.isEmpty then dflt else l

/-- The serialized `AnalysisResponse` built by every single-category
endpoint (`.dict()` order = field declaration order); absent parsed keys
default to `None` for `summary` and to `[]` / the empty dict for the list
and detail fields, exactly as in the constructor call. -/
def analysis_response_body (document_id atype now : String) (analysis_data : JObj) : JObj :=
  [("document_id", .jstr document_id),
   ("analysis_type", .jstr atype),
   ("status", .jstr "completed"),
   ("timestamp", .jstr now),
   ("summary", dictGet analysis_data "summary" .jnull),
   ("key_findings", dictGet analysis_data "key_findings" (.jarr [])),
   ("risks", dictGet analysis_data "risks" (.jarr [])),
   ("recommendations", dictGet analysis_data "recommendations" (.jarr [])),
   ("detailed_analysis", dictGet analysis_data "detailed_analysis" (.jobj []))]

/-- One single-category analysis endpoint (the six handlers are this code
with their `CatConfig` constants): locate the document (404 when absent),
extract text, resolve focus areas, build the prompt, call the model (a
raised client exception becomes a 500), normalize, build the response and
persist it under the document identifier.  Returns the result store after
the scheduled background write together with the HTTP outcome. -/
def analyze_single (cfg : CatConfig) (json_loads : String → Option JObj)
    (llm : String → Except String String) (now : String)
    (uploads : UploadStore) (results : ResultStore)
    (document_id : String) (file_type : String) (focus_areas : Option (List String)) :
    ResultStore × Except HTTPError JObj :=
  match locate uploads document_id with
  | none => (results, .error (.http 404 "Document not found"))
  | some (_, fdata) =>
    match extract_document_text fdata file_type with
    | .error e => (results, .error e)
    | .ok document_text =>
      let fa := resolve_focus_areas focus_areas cfg.defaults
      match llm (generate_analysis_prompt cfg.label document_text fa) with
      | .error e => (results, .error (.http 500 ("OpenAI API error: " ++ e)))
      | .ok analysis_result =>
        let body := analysis_response_body document_id cfg.atype now
          (normalize json_loads analysis_result)
        (save_analysis_result results document_id (.jobj body), .ok body)

/-- `set(analysis_types) - valid_types`: the requested categories outside
the valid set, one occurrence each (set iteration order is unspecified in
Python; membership is the meaningful content). -/
def invalid_types_of (analysis_types : List String) : List String :=
  (analysis_types.filter (fun t => decide (t ∉ valid_types))).dedup

/-- The per-category loop of `batch_analysis`: for each requested category,
build the prompt with the category name itself as label and the category's
default focus areas, call the model, normalize, and assign into the
`results` dict. -/
def batch_loop (json_loads : String → Option JObj) (llm : String → Except String String)
    (document_text : String) (acc : JObj) : List String → Except HTTPError JObj
  | [] => .ok acc
  | t :: ts =>
    match llm (generate_analysis_prompt t document_text (focus_areas_map t)) with
    | .error e => .error (.http 500 ("OpenAI API error: " ++ e))
    | .ok analysis_result =>
      batch_loop json_loads llm document_text
        (dictInsert acc t (.jobj (normalize json_loads analysis_result))) ts

/-- The `response_data` dict assembled by `batch_analysis`. -/
def batch_response_body (document_id now : String) (analyses : JObj) (count : Nat) : JObj :=
  [("document_id", .jstr document_id),
   ("analysis_type", .jstr "batch"),
   ("status", .jstr "completed"),
   ("timestamp", .jstr now),
   ("analyses", .jobj analyses),
   ("analysis_count", .jnum count)]

/-- `POST /api/v1/analyze/batch`: locate the document, validate every
requested category against `valid_types` (400 naming all offenders before
any extraction or model call), extract once, run the per-category loop, and
persist the assembled body under the `_batch`-suffixed identifier. -/
def batch_analysis (json_loads : String → Option JObj) (llm : String → Except String String)
    (now : String) (uploads : UploadStore) (results : ResultStore)
    (document_id : String) (file_type : String) (analysis_types : List String) :
    ResultStore × Except HTTPError JObj :=
  match locate uploads document_id with
  | none => (results, .error (.http 404 "Document not found"))
  | some (_, fdata) =>
    if invalid_types_of analysis_types = [] then
      match extract_document_text fdata file_type with
      | .error e => (results, .error e)
      | .ok document_text =>
        match batch_loop json_loads llm document_text [] analysis_types with
        | .error e => (results, .error e)
        | .ok analyses =>
          let body := batch_response_body document_id now analyses analysis_types.length
          (save_analysis_result results (document_id ++ "_batch") (.jobj body), .ok body)
    else
      (results, .error (.httpInvalidTypes 400 (invalid_types_of analysis_types)))

/-- The `allowed_types` set of `upload_document` (a Python set literal;
modelled as the list of its elements, so the joined order in the rejection
message is fixed here while Python's set order is unspecified). -/
def allowed_types : List String := [".pdf", ".docx", ".doc", ".txt"]

/-- Index of the last `.` in a character list, if any. -/
def rfind_dot : List Char → Option Nat
  | [] => none
  | c :: cs =>
    match rfind_dot cs with
    | some i => some (i + 1)
    | none => if c = '.' then some 0 else none

/-- `PurePath.suffix` of CPython: the substring from the last dot, empty
when the name has no dot, starts with its only dot, or ends with it. -/
def path_suffix (name : String) : String :=
  match rfind_dot name.data with
  | some i => if 0 < i ∧ i < name.length - 1 then ⟨name.data.drop i⟩ else ""
  | none => ""

/-- The serialized `DocumentMetadata` returned by a successful upload. -/
structure DocumentMetadata where
  document_id : String
  filename : String
  file_type : String
  upload_time : String
  file_size : Nat
  status : String
  deriving DecidableEq

/-- Rejection detail of `upload_document` for a disallowed extension. -/
def unsupported_upload_detail : String :=
  "Unsupported file type. Allowed: " ++ String.intercalate ", " allowed_types

/-- `POST /api/v1/upload`: validates the lower-cased filename extension
before anything is written; on success stores the content under the
generated identifier plus extension and returns the metadata.  `ts` is the
`strftime`-formatted clock used in the identifier, `now_iso` the ISO
timestamp in the metadata; `content` is the uploaded bytes as the parsers
will later see them, `content_size` is `len(content)`. -/
def upload_document (ts now_iso : String) (uploads : UploadStore)
    (filename : String) (content : FileData) (content_size : Nat) :
    UploadStore × Except HTTPError DocumentMetadata :=
  let file_ext := str_lower (path_suffix filename)
  if file_ext ∈ allowed_types then
    let document_id := ts ++ "_" ++ split_dot_head filename
    (dictInsert uploads (document_id ++ file_ext) content,
     .ok ⟨document_id, filename, file_ext.drop 1, now_iso, content_size, "uploaded"⟩)
  else
    (uploads, .error (.http 400 unsupported_upload_detail))

/-- A one-file upload store used by the concrete instances below. -/
def example_uploads : UploadStore := [("doc1.txt", FileData.txtBytes "hello")]

/-- A `json.loads` that fails on every input (for concrete instances whose
model replies are not JSON). -/
def none_loads : String → Option JObj := fun _ => none

/-- A model client that answers every prompt with the same reply. -/
def const_reply (s : String) : String → Except String String := fun _ => .ok s

end LegalDoc

namespace LegalDoc

theorem dictFind_dictInsert (d : List (String × α)) (k : String) (v : α) :
    dictFind (dictInsert d k v) k = some v := by
  induction d with
  | nil => simp [dictInsert, dictFind]
  | cons hd tl ih =>
    obtain ⟨k1, v1⟩ := hd
    by_cases h : k1 = k <;> simp [dictInsert, dictFind, h, ih]

theorem str_take_of_length_le {s : String} {n : Nat} (h : s.length ≤ n) :
    s.take n = s := by
  rw [String.take_eq]
  exact congrArg String.mk (List.take_of_length_le h)

theorem str_take_take (s : String) (n : Nat) : (s.take n).take n = s.take n := by
  rw [String.take_eq (s.take n), String.data_take, List.take_take, Nat.min_self,
    ← String.take_eq]

theorem analyze_single_ok (cfg : CatConfig) (json_loads : String → Option JObj)
    (llm : String → Except String String) (now : String)
    (uploads : UploadStore) (results : ResultStore)
    (document_id file_type : String) (focus_areas : Option (List String))
    (S : ResultStore) (b : JObj)
    (h : analyze_single cfg json_loads llm now uploads results document_id file_type
        focus_areas = (S, .ok b)) :
    S = save_analysis_result results document_id (.jobj b)
    ∧ ∃ data, b = analysis_response_body document_id cfg.atype now data := by
  unfold analyze_single at h
  cases hl : locate uploads document_id with
  | none => rw [hl] at h; simp at h
  | some pf =>
    obtain ⟨p, fdata⟩ := pf
    rw [hl] at h
    simp only at h
    cases he : extract_document_text fdata file_type with
    | error e => rw [he] at h; simp at h
    | ok text =>
      rw [he] at h
      simp only at h
      cases hc : llm (generate_analysis_prompt cfg.label text
          (resolve_focus_areas focus_areas cfg.defaults)) with
      | error e => rw [hc] at h; simp at h
      | ok reply =>
        rw [hc] at h
        simp only [Prod.mk.injEq, Except.ok.injEq] at h
        obtain ⟨h1, h2⟩ := h
        subst h2
        exact ⟨h1.symm, ⟨normalize json_loads reply, rfl⟩⟩

theorem response_body_atype (document_id atype now : String) (data : JObj) :
    dictGet (analysis_response_body document_id atype now data) "analysis_type" .jnull
      = .jstr atype := by
  simp [analysis_response_body, dictGet]

/-- C1 counterexample: at a concrete valid document and categories
`contract`, `tax` with an unparseable model reply, each batch entry has only
the keys `summary` and `detailed_analysis`, while the single-category
endpoint's body additionally carries `document_id`, `analysis_type`,
`status`, `timestamp` and the list fields — so the batch entries do not
match the single-endpoint body shape, refuting the claimed key equality. -/
theorem C1_counterexample :
    (batch_analysis none_loads (const_reply "not json") "T" example_uploads []
        "doc1" "txt" ["contract", "tax"]).2
      = .ok (batch_response_body "doc1" "T"
          [("contract", .jobj (parse_fallback "not json")),
           ("tax", .jobj (parse_fallback "not json"))] 2)
    ∧ (analyze_single tax_cfg none_loads (const_reply "not json") "T" example_uploads []
        "doc1" "txt" none).2
      = .ok (analysis_response_body "doc1" "tax" "T" (parse_fallback "not json"))
    ∧ dictKeys (parse_fallback "not json") = ["summary", "detailed_analysis"]
    ∧ dictKeys (analysis_response_body "doc1" "tax" "T" (parse_fallback "not json"))
      = ["document_id", "analysis_type", "status", "timestamp", "summary",
         "key_findings", "risks", "recommendations", "detailed_analysis"]
    ∧ "document_id" ∉ dictKeys (parse_fallback "not json")
    ∧ "timestamp" ∉ dictKeys (parse_fallback "not json") :=
  ⟨rfl, rfl, rfl, rfl, by decide, by decide⟩

/-- C1 (amended): for distinct valid categories the batch `analyses` map
contains exactly the entries keyed `c1` and `c2`, in request order; each
entry is the normalized model reply for that category's batch prompt (the
parsed object, or on parse failure the summary/raw-response fallback),
stored verbatim and not wrapped in the single-endpoint response envelope. -/
theorem C1_batch_two_categories (json_loads : String → Option JObj)
    (llm : String → Except String String) (now : String)
    (uploads : UploadStore) (results : ResultStore)
    (document_id file_type : String) (c1 c2 : String) (p : String) (fd : FileData)
    (text raw1 raw2 : String)
    (hc1 : c1 ∈ valid_types) (hc2 : c2 ∈ valid_types) (hne : c1 ≠ c2)
    (hloc : locate uploads document_id = some (p, fd))
    (hex : extract_document_text fd file_type = .ok text)
    (h1 : llm (generate_analysis_prompt c1 text (focus_areas_map c1)) = .ok raw1)
    (h2 : llm (generate_analysis_prompt c2 text (focus_areas_map c2)) = .ok raw2) :
    batch_analysis json_loads llm now uploads results document_id file_type [c1, c2]
      = (save_analysis_result results (document_id ++ "_batch")
          (.jobj (batch_response_body document_id now
            [(c1, .jobj (normalize json_loads raw1)),
             (c2, .jobj (normalize json_loads raw2))] 2)),
         .ok (batch_response_body document_id now
            [(c1, .jobj (normalize json_loads raw1)),
             (c2, .jobj (normalize json_loads raw2))] 2))
    ∧ dictKeys [(c1, JVal.jobj (normalize json_loads raw1)),
        (c2, JVal.jobj (normalize json_loads raw2))] = [c1, c2] := by
  have hval : invalid_types_of [c1, c2] = [] := by
    simp [invalid_types_of, List.filter, hc1, hc2]
  have hloop : batch_loop json_loads llm text [] [c1, c2]
      = .ok [(c1, .jobj (normalize json_loads raw1)),
             (c2, .jobj (normalize json_loads raw2))] := by
    unfold batch_loop
    rw [h1]
    simp only
    unfold batch_loop
    rw [h2]
    simp only
    unfold batch_loop
    congr 1
    simp [dictInsert, hne]
  constructor
  · unfold batch_analysis
    rw [hloc]
    simp only
    rw [if_pos hval, hex]
    simp only
    rw [hloop]
    rfl
  · rfl

/-- Witness for the amended C1 at a concrete document and model client. -/
theorem C1_batch_two_categories_witness :
    batch_analysis none_loads (const_reply "not json") "T" example_uploads []
        "doc1" "txt" ["contract", "tax"]
      = (save_analysis_result [] ("doc1" ++ "_batch")
          (.jobj (batch_response_body "doc1" "T"
            [("contract", .jobj (normalize none_loads "not json")),
             ("tax", .jobj (normalize none_loads "not json"))] 2)),
         .ok (batch_response_body "doc1" "T"
            [("contract", .jobj (normalize none_loads "not json")),
             ("tax", .jobj (normalize none_loads "not json"))] 2)) :=
  (C1_batch_two_categories none_loads (const_reply "not json") "T" example_uploads []
    "doc1" "txt" "contract" "tax" "doc1.txt" (FileData.txtBytes "hello")
    "hello" "not json" "not json"
    (by decide) (by decide) (by decide) rfl rfl rfl rfl).1

/-- C2: when the model reply is not parseable JSON, the shared normalization
step returns (instead of raising) the degraded dict whose summary is the
first 200 characters of the reply and whose detail map holds the raw reply
verbatim under `raw_response`; the three list fields are absent. -/
theorem C2_normalize_parse_failure (json_loads : String → Option JObj) (raw : String)
    (h : json_loads raw = none) :
    normalize json_loads raw
        = [("summary", .jstr (raw.take 200)),
           ("detailed_analysis", .jobj [("raw_response", .jstr raw)])]
      ∧ dictKeys (normalize json_loads raw) = ["summary", "detailed_analysis"]
      ∧ "key_findings" ∉ dictKeys (normalize json_loads raw)
      ∧ "risks" ∉ dictKeys (normalize json_loads raw)
      ∧ "recommendations" ∉ dictKeys (normalize json_loads raw) := by
  have hn : normalize json_loads raw = parse_fallback raw := by
    unfold normalize
    rw [h]
  have hk : dictKeys (parse_fallback raw) = ["summary", "detailed_analysis"] := rfl
  rw [hn, hk]
  refine ⟨rfl, ?_, ?_, ?_⟩ <;> decide

/-- Witness for C2 at a concrete unparseable reply. -/
theorem C2_normalize_parse_failure_witness :
    normalize (fun _ => none) "this is not JSON"
      = [("summary", .jstr (String.take "this is not JSON" 200)),
         ("detailed_analysis", .jobj [("raw_response", .jstr "this is not JSON")])] :=
  (C2_normalize_parse_failure (fun _ => none) "this is not JSON" rfl).1

/-- C3 counterexample: analyzing a stored corrupt PDF fails with status 400
(a 4xx-equivalent) carrying the cause, not a 5xx-equivalent as claimed. -/
theorem C3_counterexample :
    (analyze_single contract_cfg none_loads (const_reply "r") "T"
        [("doc1.pdf", FileData.corrupt "bad xref")] [] "doc1" "pdf" none).2
      = .error (.http 400 ("Error reading PDF: bad xref"))
    ∧ (HTTPError.http 400 ("Error reading PDF: bad xref")).status = 400
    ∧ (HTTPError.http 400 ("Error reading PDF: bad xref")).status < 500 :=
  ⟨rfl, rfl, by decide⟩

/-- C3 (amended): for a stored document whose content makes the selected
parser raise, every analysis endpoint fails with a 400-equivalent error
carrying the underlying cause text, leaving the result store unchanged. -/
theorem C3_extraction_failure_400 (cfg : CatConfig)
    (json_loads : String → Option JObj) (llm : String → Except String String)
    (now : String) (uploads : UploadStore) (results : ResultStore)
    (document_id file_type : String) (fa : Option (List String))
    (cause p : String)
    (hloc : locate uploads document_id = some (p, .corrupt cause)) :
    (str_lower file_type = "pdf" →
      analyze_single cfg json_loads llm now uploads results document_id file_type fa
        = (results, .error (.http 400 ("Error reading PDF: " ++ cause))))
    ∧ (str_lower file_type = "docx" ∨ str_lower file_type = "doc" →
      analyze_single cfg json_loads llm now uploads results document_id file_type fa
        = (results, .error (.http 400 ("Error reading DOCX: " ++ cause))))
    ∧ (str_lower file_type = "txt" →
      analyze_single cfg json_loads llm now uploads results document_id file_type fa
        = (results, .error (.http 400 ("Error reading TXT: " ++ cause)))) := by
  refine ⟨?_, ?_, ?_⟩
  · intro hp
    unfold analyze_single
    rw [hloc]
    simp only
    unfold extract_document_text
    rw [if_pos hp]
    rfl
  · intro hd
    have hp : ¬ str_lower file_type = "pdf" := by
      rcases hd with h | h <;> rw [h] <;> decide
    unfold analyze_single
    rw [hloc]
    simp only
    unfold extract_document_text
    rw [if_neg hp, if_pos hd]
    rfl
  · intro ht
    have hp : ¬ str_lower file_type = "pdf" := by rw [ht]; decide
    have hd : ¬ (str_lower file_type = "docx" ∨ str_lower file_type = "doc") := by
      rw [ht]; decide
    unfold analyze_single
    rw [hloc]
    simp only
    unfold extract_document_text
    rw [if_neg hp, if_neg hd, if_pos ht]
    rfl

/-- Witness for the amended C3 at a concrete corrupt PDF. -/
theorem C3_extraction_failure_400_witness :
    analyze_single contract_cfg none_loads (const_reply "r") "T"
        [("doc1.pdf", FileData.corrupt "bad xref")] [] "doc1" "pdf" none
      = ([], .error (.http 400 ("Error reading PDF: " ++ "bad xref"))) :=
  (C3_extraction_failure_400 contract_cfg none_loads (const_reply "r") "T"
    [("doc1.pdf", FileData.corrupt "bad xref")] [] "doc1" "pdf" none
    "bad xref" "doc1.pdf" rfl).1 rfl

/-- C4: a batch request naming any category outside the fixed six-element
set fails (once the document is located) with a 400 carrying every
offending name at once; the result store is untouched, the outcome does not
depend on the model client at all, and the carried names are exactly the
requested categories outside the valid set. -/
theorem C4_batch_invalid_categories (json_loads : String → Option JObj)
    (llm llm' : String → Except String String) (now : String)
    (uploads : UploadStore) (results : ResultStore)
    (document_id file_type : String) (analysis_types : List String)
    (p : String) (fd : FileData)
    (hloc : locate uploads document_id = some (p, fd))
    (hbad : invalid_types_of analysis_types ≠ []) :
    batch_analysis json_loads llm now uploads results document_id file_type analysis_types
        = (results, .error (.httpInvalidTypes 400 (invalid_types_of analysis_types)))
    ∧ batch_analysis json_loads llm now uploads results document_id file_type analysis_types
        = batch_analysis json_loads llm' now uploads results document_id file_type
            analysis_types
    ∧ ∀ c, c ∈ invalid_types_of analysis_types ↔ c ∈ analysis_types ∧ c ∉ valid_types := by
  have key : ∀ g : String → Except String String,
      batch_analysis json_loads g now uploads results document_id file_type analysis_types
        = (results, .error (.httpInvalidTypes 400 (invalid_types_of analysis_types))) := by
    intro g
    unfold batch_analysis
    rw [hloc]
    simp only
    rw [if_neg hbad]
  refine ⟨key llm, (key llm).trans (key llm').symm, ?_⟩
  intro c
  simp [invalid_types_of, List.mem_dedup, List.mem_filter]

/-- Witness for C4: `["contract", "nonsense"]` fails naming `nonsense`. -/
theorem C4_batch_invalid_categories_witness :
    batch_analysis none_loads (const_reply "r") "T" example_uploads [] "doc1" "txt"
        ["contract", "nonsense"]
      = ([], .error (.httpInvalidTypes 400 ["nonsense"])) := by
  have h := (C4_batch_invalid_categories none_loads (const_reply "r") (const_reply "q")
    "T" example_uploads [] "doc1" "txt" ["contract", "nonsense"]
    "doc1.txt" (FileData.txtBytes "hello") rfl (by decide)).1
  have he : invalid_types_of ["contract", "nonsense"] = ["nonsense"] := by decide
  rw [he] at h
  exact h

/-- C5: the prompt built by `generate_analysis_prompt` depends on the input
document text only through its first 5000 characters; it always embeds
exactly `text[:5000]` (a hard character cutoff), and for text of length at
most 5000 it embeds the text unchanged between the fixed template parts. -/
theorem C5_prompt_hard_truncation :
    (∀ a f (t u : String), t.take 5000 = u.take 5000 →
        generate_analysis_prompt a t f = generate_analysis_prompt a u f)
    ∧ (∀ a f (t : String), generate_analysis_prompt a t f
        = generate_analysis_prompt a (t.take 5000) f)
    ∧ (∀ a f (t : String), t.length ≤ 5000 →
        generate_analysis_prompt a t f = prompt_head a f ++ t ++ prompt_tail) := by
  refine ⟨?_, ?_, ?_⟩
  · intro a f t u h
    unfold generate_analysis_prompt
    rw [h]
  · intro a f t
    unfold generate_analysis_prompt
    rw [str_take_take]
  · intro a f t h
    unfold generate_analysis_prompt
    rw [str_take_of_length_le h]

/-- Witness for C5 at a concrete short document. -/
theorem C5_prompt_hard_truncation_witness :
    generate_analysis_prompt "contract" "short document" contract_focus
      = prompt_head "contract" contract_focus ++ "short document" ++ prompt_tail :=
  C5_prompt_hard_truncation.2.2 "contract" contract_focus "short document" (by decide)

/-- C6: an upload whose lower-cased filename extension is not an allowed
one is rejected with a 400 and leaves the upload store unchanged. -/
theorem C6_upload_rejects_unsupported (ts now_iso : String) (uploads : UploadStore)
    (filename : String) (content : FileData) (content_size : Nat)
    (h : str_lower (path_suffix filename) ∉ allowed_types) :
    upload_document ts now_iso uploads filename content content_size
      = (uploads, .error (.http 400 unsupported_upload_detail)) := by
  unfold upload_document
  rw [if_neg h]

/-- Witness for C6: uploading `malware.exe` is rejected, store unchanged. -/
theorem C6_upload_rejects_unsupported_witness :
    upload_document "20260101_000000" "2026-01-01T00:00:00" example_uploads
        "malware.exe" (FileData.txtBytes "x") 1
      = (example_uploads, .error (.http 400 unsupported_upload_detail)) :=
  C6_upload_rejects_unsupported "20260101_000000" "2026-01-01T00:00:00" example_uploads
    "malware.exe" (FileData.txtBytes "x") 1 (by decide)

/-- C7: every single-category endpoint persists under a key built from the
document identifier alone (no category in the key), so two analyses of
different categories on one document overwrite each other and retrieval
returns only the most recently persisted category's result. -/
theorem C7_result_key_ignores_category (cfg1 cfg2 : CatConfig)
    (json_loads : String → Option JObj) (llm : String → Except String String)
    (now1 now2 : String) (uploads : UploadStore) (results : ResultStore)
    (document_id file_type : String) (fa1 fa2 : Option (List String))
    (S1 S2 : ResultStore) (b1 b2 : JObj)
    (h1 : analyze_single cfg1 json_loads llm now1 uploads results document_id file_type fa1
        = (S1, .ok b1))
    (h2 : analyze_single cfg2 json_loads llm now2 uploads S1 document_id file_type fa2
        = (S2, .ok b2))
    (hne : cfg1.atype ≠ cfg2.atype) :
    S1 = save_analysis_result results document_id (.jobj b1)
    ∧ S2 = save_analysis_result S1 document_id (.jobj b2)
    ∧ get_analysis_results S2 document_id = .ok (.jobj b2)
    ∧ dictGet b1 "analysis_type" .jnull = .jstr cfg1.atype
    ∧ dictGet b2 "analysis_type" .jnull = .jstr cfg2.atype
    ∧ get_analysis_results S2 document_id ≠ .ok (.jobj b1) := by
  obtain ⟨hs1, data1, hb1⟩ := analyze_single_ok _ _ _ _ _ _ _ _ _ _ _ h1
  obtain ⟨hs2, data2, hb2⟩ := analyze_single_ok _ _ _ _ _ _ _ _ _ _ _ h2
  have hget : get_analysis_results S2 document_id = .ok (.jobj b2) := by
    rw [hs2]
    unfold get_analysis_results save_analysis_result
    rw [dictFind_dictInsert]
  have ht1 : dictGet b1 "analysis_type" .jnull = .jstr cfg1.atype := by
    rw [hb1]; exact response_body_atype _ _ _ _
  have ht2 : dictGet b2 "analysis_type" .jnull = .jstr cfg2.atype := by
    rw [hb2]; exact response_body_atype _ _ _ _
  have hbne : b1 ≠ b2 := by
    intro hEq
    rw [hEq, ht2] at ht1
    exact hne (JVal.jstr.inj ht1).symm
  refine ⟨hs1, hs2, hget, ht1, ht2, ?_⟩
  intro hcontra
  rw [hget] at hcontra
  exact hbne ((JVal.jobj.inj (Except.ok.inj hcontra)).symm)

/-- Witness for C7: a contract analysis then a tax analysis of the same
stored document; retrieval afterwards returns only the tax result. -/
theorem C7_result_key_ignores_category_witness :
    get_analysis_results (analyze_single tax_cfg none_loads (const_reply "not json") "T2"
        example_uploads
        (analyze_single contract_cfg none_loads (const_reply "not json") "T1"
          example_uploads [] "doc1" "txt" none).1
        "doc1" "txt" none).1 "doc1"
      = .ok (.jobj (analysis_response_body "doc1" "tax" "T2" (parse_fallback "not json")))
    ∧ get_analysis_results (analyze_single tax_cfg none_loads (const_reply "not json") "T2"
        example_uploads
        (analyze_single contract_cfg none_loads (const_reply "not json") "T1"
          example_uploads [] "doc1" "txt" none).1
        "doc1" "txt" none).1 "doc1"
      ≠ .ok (.jobj (analysis_response_body "doc1" "contract" "T1"
          (parse_fallback "not json"))) := by
  have h := C7_result_key_ignores_category contract_cfg tax_cfg none_loads
    (const_reply "not json") "T1" "T2" example_uploads [] "doc1" "txt" none none
    (analyze_single contract_cfg none_loads (const_reply "not json") "T1"
      example_uploads [] "doc1" "txt" none).1
    (analyze_single tax_cfg none_loads (const_reply "not json") "T2"
      example_uploads
      (analyze_single contract_cfg none_loads (const_reply "not json") "T1"
        example_uploads [] "doc1" "txt" none).1
      "doc1" "txt" none).1
    (analysis_response_body "doc1" "contract" "T1" (parse_fallback "not json"))
    (analysis_response_body "doc1" "tax" "T2" (parse_fallback "not json"))
    rfl rfl (by decide)
  exact ⟨h.2.2.1, h.2.2.2.2.2⟩

/-- C8: re-running the analysis for the same document and category persists
under the same key, overwriting the prior record; retrieval after the second
write returns only the newer result. -/
theorem C8_rerun_overwrites_same_key (cfg : CatConfig)
    (json_loads : String → Option JObj) (llm1 llm2 : String → Except String String)
    (now1 now2 : String) (uploads : UploadStore) (results : ResultStore)
    (document_id file_type : String) (fa1 fa2 : Option (List String))
    (S1 S2 : ResultStore) (b1 b2 : JObj)
    (h1 : analyze_single cfg json_loads llm1 now1 uploads results document_id file_type fa1
        = (S1, .ok b1))
    (h2 : analyze_single cfg json_loads llm2 now2 uploads S1 document_id file_type fa2
        = (S2, .ok b2)) :
    S1 = save_analysis_result results document_id (.jobj b1)
    ∧ S2 = save_analysis_result S1 document_id (.jobj b2)
    ∧ get_analysis_results S2 document_id = .ok (.jobj b2)
    ∧ (b1 ≠ b2 → get_analysis_results S2 document_id ≠ .ok (.jobj b1)) := by
  obtain ⟨hs1, _, _⟩ := analyze_single_ok _ _ _ _ _ _ _ _ _ _ _ h1
  obtain ⟨hs2, _, _⟩ := analyze_single_ok _ _ _ _ _ _ _ _ _ _ _ h2
  have hget : get_analysis_results S2 document_id = .ok (.jobj b2) := by
    rw [hs2]
    unfold get_analysis_results save_analysis_result
    rw [dictFind_dictInsert]
  refine ⟨hs1, hs2, hget, ?_⟩
  intro hbne hcontra
  rw [hget] at hcontra
  exact hbne ((JVal.jobj.inj (Except.ok.inj hcontra)).symm)

/-- Witness for C8: two contract analyses at different timestamps; the
second result is the one retrieved, and the first no longer is. -/
theorem C8_rerun_overwrites_same_key_witness :
    get_analysis_results (analyze_single contract_cfg none_loads (const_reply "not json")
        "T2" example_uploads
        (analyze_single contract_cfg none_loads (const_reply "not json") "T1"
          example_uploads [] "doc1" "txt" none).1
        "doc1" "txt" none).1 "doc1"
      = .ok (.jobj (analysis_response_body "doc1" "contract" "T2"
          (parse_fallback "not json")))
    ∧ get_analysis_results (analyze_single contract_cfg none_loads (const_reply "not json")
        "T2" example_uploads
        (analyze_single contract_cfg none_loads (const_reply "not json") "T1"
          example_uploads [] "doc1" "txt" none).1
        "doc1" "txt" none).1 "doc1"
      ≠ .ok (.jobj (analysis_response_body "doc1" "contract" "T1"
          (parse_fallback "not json"))) := by
  have h := C8_rerun_overwrites_same_key contract_cfg none_loads
    (const_reply "not json") (const_reply "not json") "T1" "T2" example_uploads []
    "doc1" "txt" none none
    (analyze_single contract_cfg none_loads (const_reply "not json") "T1"
      example_uploads [] "doc1" "txt" none).1
    (analyze_single contract_cfg none_loads (const_reply "not json") "T2"
      example_uploads
      (analyze_single contract_cfg none_loads (const_reply "not json") "T1"
        example_uploads [] "doc1" "txt" none).1
      "doc1" "txt" none).1
    (analysis_response_body "doc1" "contract" "T1" (parse_fallback "not json"))
    (analysis_response_body "doc1" "contract" "T2" (parse_fallback "not json"))
    rfl rfl
  refine ⟨h.2.2.1, h.2.2.2 ?_⟩
  intro hEq
  have := congrArg (fun d => dictGet d "timestamp" .jnull) hEq
  simp [analysis_response_body, dictGet] at this

/-- C9: extraction on well-formed stored files follows the per-format rules:
PDF concatenates per-page texts in page order (two pages yield
`page1 ++ page2` with no separator), Word joins paragraphs with newlines in
document order (under both `docx` and `doc` tags), plain text returns the
decoded content. -/
theorem C9_extraction_join_rules :
    (∀ pages, extract_document_text (.pdfPages pages) "pdf" = .ok (String.join pages))
    ∧ (∀ p1 p2, extract_document_text (.pdfPages [p1, p2]) "pdf" = .ok (p1 ++ p2))
    ∧ (∀ paras, extract_document_text (.docParagraphs paras) "docx"
        = .ok (String.intercalate "\n" paras))
    ∧ (∀ paras, extract_document_text (.docParagraphs paras) "doc"
        = .ok (String.intercalate "\n" paras))
    ∧ (∀ s, extract_document_text (.txtBytes s) "txt" = .ok s) := by
  refine ⟨?_, ?_, ?_, ?_, ?_⟩
  · intro pages
    unfold extract_document_text
    rw [if_pos (show str_lower "pdf" = "pdf" from rfl)]
    rfl
  · intro p1 p2
    unfold extract_document_text
    rw [if_pos (show str_lower "pdf" = "pdf" from rfl)]
    show Except.ok (("" ++ p1) ++ p2) = _
    rw [String.empty_append]
  · intro paras
    unfold extract_document_text
    rw [if_neg (show ¬ str_lower "docx" = "pdf" by decide),
        if_pos (Or.inl (show str_lower "docx" = "docx" from rfl))]
    rfl
  · intro paras
    unfold extract_document_text
    rw [if_neg (show ¬ str_lower "doc" = "pdf" by decide),
        if_pos (Or.inr (show str_lower "doc" = "doc" from rfl))]
    rfl
  · intro s
    unfold extract_document_text
    rw [if_neg (show ¬ str_lower "txt" = "pdf" by decide),
        if_neg (show ¬ (str_lower "txt" = "docx" ∨ str_lower "txt" = "doc") by decide),
        if_pos (show str_lower "txt" = "txt" from rfl)]
    rfl

/-- C10: for every single-category endpoint, an explicitly supplied empty
focus list behaves exactly like an omitted one (whose pydantic default is
the category's default list): the defaults are used, and they are
non-empty, so the prompt never embeds an empty focus-area list. -/
theorem C10_empty_focus_uses_defaults (cfg : CatConfig) (hcfg : cfg ∈ endpoint_cfgs)
    (json_loads : String → Option JObj) (llm : String → Except String String)
    (now : String) (uploads : UploadStore) (results : ResultStore)
    (document_id file_type : String) :
    analyze_single cfg json_loads llm now uploads results document_id file_type (some [])
        = analyze_single cfg json_loads llm now uploads results document_id file_type
            (some cfg.defaults)
    ∧ resolve_focus_areas (some []) cfg.defaults = cfg.defaults
    ∧ resolve_focus_areas (some cfg.defaults) cfg.defaults = cfg.defaults
    ∧ cfg.defaults ≠ [] := by
  have h1 : resolve_focus_areas (some []) cfg.defaults = cfg.defaults := rfl
  have h2 : resolve_focus_areas (some cfg.defaults) cfg.defaults = cfg.defaults := by
    simp [resolve_focus_areas, ite_self]
  refine ⟨?_, h1, h2, ?_⟩
  · unfold analyze_single
    simp only [h1, h2]
  · simp only [endpoint_cfgs, List.mem_cons, List.not_mem_nil, or_false] at hcfg
    rcases hcfg with h | h | h | h | h | h <;> subst h <;> decide

/-- Witness for C10 at the tax endpoint with a concrete request. -/
theorem C10_empty_focus_uses_defaults_witness :
    analyze_single tax_cfg none_loads (const_reply "r") "T" example_uploads []
        "doc1" "txt" (some [])
      = analyze_single tax_cfg none_loads (const_reply "r") "T" example_uploads []
          "doc1" "txt" (some tax_focus)
    ∧ tax_focus ≠ [] := by
  have h := C10_empty_focus_uses_defaults tax_cfg (by decide) none_loads (const_reply "r")
    "T" example_uploads [] "doc1" "txt"
  exact ⟨h.1, h.2.2.2⟩

end LegalDoc
